import Mathlib

/-!
Shallow embedding of the `SignalsClient` class
(`plugins/signals/src/SignalsClient.ts`): a multiplexing WebSocket client
with subscription reference counting, outbound buffering and
reconnection.  JavaScript `Map` iteration order is insertion order, so
the subscription map is modelled as an association list; the message
queue (a JS array of JSON strings) is modelled as a list of frames,
since `JSON.stringify` is injective on the frame objects this client
builds and never yields an empty string for them.  Asynchronous
continuations are sequenced synchronously; the environment's choices
(whether the transport reaches OPEN within the bounded wait, which
credential the identity collaborator returns) are explicit parameters.
-/

namespace Signals

/-- WebSocket ready states (`WebSocket.CONNECTING` / `OPEN` / `CLOSING` /
`CLOSED`).  The model stores a transport handle as its ready state. -/
inductive ReadyState
  | connecting
  | opened
  | closing
  | closed
deriving DecidableEq, Repr

/-- Outbound control frames built by the client:
`\x7baction: "subscribe", topic\x7d`, `\x7baction: "unsubscribe", topic\x7d` and
`\x7baction: "authenticate", token\x7d` (`SignalsClient.ts` sites of `send`). -/
inductive Frame
  | subscribe (topic : String)
  | unsubscribe (topic : String)
  | authenticate (token : String)
deriving DecidableEq, Repr

/-- One registry entry: `type Subscription = \x7b topic, callback \x7d`.
Callbacks are abstracted by an identifier. -/
structure Subscription where
  topic : String
  cb : Nat
deriving DecidableEq, Repr

/-- Close code `WS_CLOSE_NORMAL = 1000`. -/
def WS_CLOSE_NORMAL : Nat := 1000

/-- Close code `WS_CLOSE_GOING_AWAY = 1001`. -/
def WS_CLOSE_GOING_AWAY : Nat := 1001

/-- Constant `SignalsClient.CONNECT_TIMEOUT_MS = 1000`. -/
def CONNECT_TIMEOUT_MS : Nat := 1000

/-- Constant `SignalsClient.RECONNECT_TIMEOUT_MS = 5000`. -/
def RECONNECT_TIMEOUT_MS : Nat := 5000

/-- The mutable fields of a `SignalsClient` instance, together with the
scheduler state needed to reason about `setTimeout` / `clearTimeout`:
`pendingTimers` lists the scheduled-and-not-yet-fired-or-cleared timers
as (handle, delay-ms) pairs, and `nextTimer` supplies fresh handles. -/
structure ClientState where
  ws : Option ReadyState
  subscriptions : List (String × Subscription)
  messageQueue : List Frame
  reconnectTimeout : Option Nat
  pendingTimers : List (Nat × Nat)
  nextTimer : Nat
deriving DecidableEq, Repr

/-- The state of a freshly constructed client. -/
def initState : ClientState :=
  { ws := none
    subscriptions := []
    messageQueue := []
    reconnectTimeout := none
    pendingTimers := []
    nextTimer := 0 }

/-- JS `Map.delete`: remove the entry with the given key (keys are unique
uuids, so at most one entry matches). -/
def mapDelete (m : List (String × Subscription)) (k : String) :
    List (String × Subscription) :=
  m.filter (fun p => p.1 ≠ k)

/-- JS `Map.set`: overwrite in place when the key exists, else append
(JS `Map` keeps insertion order). -/
def mapSet (m : List (String × Subscription)) (k : String) (v : Subscription) :
    List (String × Subscription) :=
  if m.any (fun p => p.1 = k) then
    m.map (fun p => if p.1 = k then (k, v) else p)
  else
    m ++ [(k, v)]

/-- The check `[...this.subscriptions.values()].find(sub => sub.topic === topic)`
viewed as a Boolean: is some live subscription registered on `t`? -/
def hasTopicB (m : List (String × Subscription)) (t : String) : Bool :=
  (m.find? (fun p => p.2.topic = t)).isSome

/-- Method `SignalsClient.send`.  Every call site passes a frame, and
`JSON.stringify` of a frame object is a nonempty string, so the
`jsonMessage.length === 0` early return never fires.  When the transport
is absent or not OPEN the frame is buffered with `unshift` (prepended);
when it is OPEN the whole queue is flushed in storage order, cleared,
and the new frame transmitted last.  Returns the new state and the
frames put on the wire by this call. -/
def send (st : ClientState) (data : Frame) : ClientState × List Frame :=
  match st.ws with
  | some rs =>
      if rs = ReadyState.opened then
        ({ st with messageQueue := [] }, st.messageQueue ++ [data])
      else
        ({ st with messageQueue := data :: st.messageQueue }, [])
  | none => ({ st with messageQueue := data :: st.messageQueue }, [])

/-- A sequence of `send` calls, concatenating the transmitted frames. -/
def sendAll (st : ClientState) : List Frame → ClientState × List Frame
  | [] => (st, [])
  | f :: fs =>
      let r := send st f
      let r2 := sendAll r.1 fs
      (r2.1, r.2 ++ r2.2)

/-- Method `SignalsClient.connect`.  `envOpens` abstracts the environment
choice of whether the socket's ready state becomes OPEN within the
100ms-step, `CONNECT_TIMEOUT_MS`-bounded polling loop; `token` is the
credential the identity collaborator returns.  If `this.ws` is already
set the promise resolves at once (no fresh attempt, no frames).
Otherwise a socket is created; when it fails to open in time the
function rejects with the string thrown by `new Error('Connect
timeout')`, leaving the half-open handle stored; on success it runs
`authenticate`, which sends an `authenticate` frame when a token is
present. -/
def connectOp (st : ClientState) (envOpens : Bool) (token : Option String) :
    ClientState × List Frame × Except String Unit :=
  match st.ws with
  | some _ => (st, [], Except.ok ())
  | none =>
      if envOpens then
        let st1 := { st with ws := some ReadyState.opened }
        match token with
        | some tk =>
            let r := send st1 (Frame.authenticate tk)
            (r.1, r.2, Except.ok ())
        | none => (st1, [], Except.ok ())
      else
        ({ st with ws := some ReadyState.connecting }, [],
          Except.error "Connect timeout")

/-- Method `SignalsClient.reconnect`: `clearTimeout` the stored handle when one
exists, then `setTimeout` a fresh reconnect task with delay
`RECONNECT_TIMEOUT_MS` and store its handle. -/
def reconnectOp (st : ClientState) : ClientState :=
  let cleared :=
    match st.reconnectTimeout with
    | some id => { st with pendingTimers := st.pendingTimers.filter (fun p => p.1 ≠ id) }
    | none => st
  { cleared with
      reconnectTimeout := some cleared.nextTimer
      pendingTimers := cleared.pendingTimers ++ [(cleared.nextTimer, RECONNECT_TIMEOUT_MS)]
      nextTimer := cleared.nextTimer + 1 }

/-- Method `SignalsClient.subscribe`: record the presence check for the topic,
insert the new entry under a fresh id, then `connect()`; on resolution
send a `subscribe` frame only when the topic had no prior subscriber; on
rejection trigger `reconnect()`.  Returns the new state and the frames
put on the wire. -/
def subscribeOp (st : ClientState) (subId : String) (cb : Nat) (topic : String)
    (envOpens : Bool) (token : Option String) : ClientState × List Frame :=
  let ex := hasTopicB st.subscriptions topic
  let st1 := { st with subscriptions := mapSet st.subscriptions subId ⟨topic, cb⟩ }
  let c := connectOp st1 envOpens token
  match c.2.2 with
  | Except.ok _ =>
      if ex then (c.1, c.2.1)
      else
        let r := send c.1 (Frame.subscribe topic)
        (r.1, c.2.1 ++ r.2)
  | Except.error _ => (reconnectOp c.1, c.2.1)

/-- Method `SignalsClient.unsubscribe`: no-op on an unknown handle; otherwise
delete the entry, send an `unsubscribe` frame when no remaining entry
shares the topic, and when the registry is now empty call
`this.ws?.close(WS_CLOSE_NORMAL)` and null the handle.  Returns the new
state, the frames put on the wire, and the close code passed to
`close` when a close call was made. -/
def unsubscribeOp (st : ClientState) (subId : String) :
    ClientState × List Frame × Option Nat :=
  match st.subscriptions.find? (fun p => p.1 = subId) with
  | none => (st, [], none)
  | some e =>
      let subs1 := mapDelete st.subscriptions subId
      let st1 := { st with subscriptions := subs1 }
      let r :=
        if hasTopicB subs1 e.2.topic then (st1, ([] : List Frame))
        else send st1 (Frame.unsubscribe e.2.topic)
      if r.1.subscriptions.isEmpty then
        match r.1.ws with
        | some _ => ({ r.1 with ws := none }, r.2, some WS_CLOSE_NORMAL)
        | none => ({ r.1 with ws := none }, r.2, none)
      else (r.1, r.2, none)

/-- The `onclose` handler installed by `connect`: trigger `reconnect()`
unless the close code is `WS_CLOSE_NORMAL` or `WS_CLOSE_GOING_AWAY`. -/
def oncloseHandler (st : ClientState) (code : Nat) : ClientState :=
  if code ≠ WS_CLOSE_NORMAL ∧ code ≠ WS_CLOSE_GOING_AWAY then reconnectOp st else st

/-- The body of the task scheduled by `reconnect`: null the stored
timer handle, close and discard the old socket, `connect()`; on success
iterate `this.subscriptions.keys()` — the subscription ids — sending a
`subscribe` frame whose topic field is each KEY of the map; on failure
call `reconnect()` again. -/
def timerCallback (st : ClientState) (envOpens : Bool) (token : Option String) :
    ClientState × List Frame :=
  let st1 := { st with reconnectTimeout := none, ws := none }
  let c := connectOp st1 envOpens token
  match c.2.2 with
  | Except.ok _ =>
      let r := sendAll c.1 (c.1.subscriptions.map (fun p => Frame.subscribe p.1))
      (r.1, c.2.1 ++ r.2)
  | Except.error _ => (reconnectOp c.1, c.2.1)

/-- Firing of a pending reconnect timer: remove it from the scheduler
and run `timerCallback`; with no pending timer nothing happens. -/
def timerFire (st : ClientState) (envOpens : Bool) (token : Option String) :
    ClientState × List Frame :=
  match st.pendingTimers with
  | [] => (st, [])
  | _ :: rest => timerCallback { st with pendingTimers := rest } envOpens token

/-- An inbound transport message as seen after `JSON.parse`:
either the parse threw (`malformed`), or it produced an object whose
`topic` field is absent or a string (`msg` abstracts the `message`
field passed verbatim to callbacks).  For the modelled values JS
truthiness of `json.topic` is: absent ↦ falsy, `""` ↦ falsy, a nonempty
string ↦ truthy. -/
inductive Payload
  | malformed
  | parsed (topic : Option String) (msg : Nat)
deriving DecidableEq, Repr

/-- Method `SignalsClient.handleMessage`: inside `try`, parse, and when
`json.topic` is truthy invoke the callback of every subscription whose
topic equals it; `catch` swallows everything.  Returns the (callback id,
message) invocations, in registry iteration order. -/
def handleMessage (st : ClientState) (p : Payload) : List (Nat × Nat) :=
  match p with
  | Payload.malformed => []
  | Payload.parsed topicField msg =>
      match topicField with
      | none => []
      | some t =>
          if t = "" then []
          else
            (st.subscriptions.filter (fun s => s.2.topic = t)).map
              (fun s => (s.2.cb, msg))

/-- Occurrences of a frame in a transmission log. -/
def countFrame (l : List Frame) (f : Frame) : Nat :=
  (l.filter (fun g => g = f)).length

/-- Buffering while the transport is not OPEN transmits nothing and
prepends each frame, so the queue ends up holding the frames in
reverse submission order. -/
theorem sendAll_closed (fs : List Frame) (st : ClientState)
    (hws : st.ws ≠ some ReadyState.opened) :
    sendAll st fs = ({ st with messageQueue := fs.reverse ++ st.messageQueue }, []) := by
  induction fs generalizing st with
  | nil => simp [sendAll]
  | cons f fs ih =>
      have hsend : send st f = ({ st with messageQueue := f :: st.messageQueue }, []) := by
        unfold send
        cases hw : st.ws with
        | none => rfl
        | some rs =>
            dsimp only
            rw [if_neg]
            intro hEq
            rw [hEq] at hw
            exact hws hw
      simp only [sendAll, hsend]
      rw [ih]
      · simp
      · exact hws

/-- C8: a payload that fails to parse causes zero callback invocations
and raises nothing past the handler boundary (`handleMessage` is total
and returns the empty invocation list on `malformed`). -/
theorem malformed_payload_discarded (st : ClientState) :
    handleMessage st Payload.malformed = [] := rfl

/-- C10: a well-formed inbound frame whose `topic` field is absent, or
whose topic is the falsy empty string, dispatches to no subscriber
callback, whatever the registry holds — including a subscription
registered with the empty-string topic. -/
theorem falsy_topic_no_dispatch (st : ClientState) (msg : Nat) :
    handleMessage st (Payload.parsed none msg) = [] ∧
    handleMessage st (Payload.parsed (some "") msg) = [] := by
  constructor
  · rfl
  · simp [handleMessage]

/-- A registry holding two live subscriptions (handles `id1`, `id2`)
to the same topic `t`, with a reconnect timer pending and the old
transport already gone. -/
def twoSubsOneTopic : ClientState :=
  { ws := none
    subscriptions := [("id1", ⟨"t", 0⟩), ("id2", ⟨"t", 1⟩)]
    messageQueue := []
    reconnectTimeout := some 0
    pendingTimers := [(0, RECONNECT_TIMEOUT_MS)]
    nextTimer := 1 }

/-- C2: evaluating the reconnect task at the failing input.  The
resubscription loop iterates `this.subscriptions.keys()` — the
subscription ids — so after a successful reconnect the client transmits
one `subscribe` frame per subscription whose topic field is the
subscription id (`id1`, `id2`), and zero `subscribe` frames for the
actual topic `t`, contradicting the claimed one-frame-per-distinct-topic
retransmission. -/
theorem reconnect_resubscribes_ids :
    (timerFire twoSubsOneTopic true none).2
        = [Frame.subscribe "id1", Frame.subscribe "id2"] ∧
    countFrame (timerFire twoSubsOneTopic true none).2 (Frame.subscribe "t") = 0 := by
  constructor
  · rfl
  · rfl

/-- C3 counterexample: from a fresh client with no transport, submit
frame `a` then frame `b`; once a transport is open, a third send
transmits `b` before `a` — the buffered frames go out in reverse
submission order, not FIFO. -/
theorem buffered_order_cex :
    (send { (send (send initState (Frame.subscribe "a")).1
              (Frame.subscribe "b")).1 with ws := some ReadyState.opened }
        (Frame.subscribe "c")).2
      = [Frame.subscribe "b", Frame.subscribe "a", Frame.subscribe "c"] ∧
    (send { (send (send initState (Frame.subscribe "a")).1
              (Frame.subscribe "b")).1 with ws := some ReadyState.opened }
        (Frame.subscribe "c")).2
      ≠ [Frame.subscribe "a", Frame.subscribe "b", Frame.subscribe "c"] := by
  constructor
  · rfl
  · decide

/-- C3 (amended): frames submitted while the transport is not open are
all buffered (nothing transmitted, nothing dropped), and once a
transport is open the next send flushes every buffered frame before the
newly requested frame and empties the queue — but the buffered frames
are flushed in REVERSE submission order (the queue is built with
`unshift`), not FIFO. -/
theorem buffered_frames_drained_lifo (st : ClientState) (fs : List Frame) (f : Frame)
    (hws : st.ws ≠ some ReadyState.opened) (hq : st.messageQueue = []) :
    (sendAll st fs).2 = [] ∧
    (sendAll st fs).1.messageQueue = fs.reverse ∧
    (send { (sendAll st fs).1 with ws := some ReadyState.opened } f).2
        = fs.reverse ++ [f] ∧
    (send { (sendAll st fs).1 with ws := some ReadyState.opened } f).1.messageQueue
        = [] := by
  rw [sendAll_closed fs st hws]
  simp [send, hq]

/-- Witness for `buffered_frames_drained_lifo` at a concrete run. -/
theorem buffered_frames_drained_lifo_witness :
    (sendAll initState [Frame.subscribe "a", Frame.subscribe "b"]).2 = [] ∧
    (sendAll initState [Frame.subscribe "a", Frame.subscribe "b"]).1.messageQueue
        = [Frame.subscribe "a", Frame.subscribe "b"].reverse ∧
    (send { (sendAll initState [Frame.subscribe "a", Frame.subscribe "b"]).1 with
        ws := some ReadyState.opened } (Frame.subscribe "c")).2
        = [Frame.subscribe "a", Frame.subscribe "b"].reverse ++ [Frame.subscribe "c"] ∧
    (send { (sendAll initState [Frame.subscribe "a", Frame.subscribe "b"]).1 with
        ws := some ReadyState.opened } (Frame.subscribe "c")).1.messageQueue = [] :=
  buffered_frames_drained_lifo initState
    [Frame.subscribe "a", Frame.subscribe "b"] (Frame.subscribe "c")
    (by decide) rfl

/-- C4 counterexample: a fresh client whose transport fails to reach
OPEN within the bounded wait.  `connect()` rejects with the Connect
timeout error, yet the half-open transport handle REMAINS stored
(`ws = some connecting ≠ none`), and a subsequent `connect()` no-ops on
that stale handle: it resolves successfully at once, leaving the state
unchanged and opening nothing — contradicting the claim that no handle
remains and that a later `connect()` starts a fresh attempt. -/
theorem connect_timeout_cex :
    (connectOp initState false none).2.2 = Except.error "Connect timeout" ∧
    (connectOp initState false none).1.ws = some ReadyState.connecting ∧
    (connectOp initState false none).1.ws ≠ none ∧
    connectOp (connectOp initState false none).1 true none
        = ((connectOp initState false none).1, [], Except.ok ()) := by
  refine ⟨rfl, rfl, ?_, rfl⟩
  decide

/-- C4 (amended): when the transport does not reach OPEN within the
bounded wait (100ms polls up to `CONNECT_TIMEOUT_MS`), `connect()`
fails with the Connect timeout error, but the stale half-open handle
remains stored, and any subsequent `connect()` resolves immediately on
it without starting a fresh attempt; only the reconnect path clears the
handle. -/
theorem connect_timeout_leaves_handle (st : ClientState) (tok tok' : Option String)
    (env' : Bool) (hws : st.ws = none) :
    (connectOp st false tok).2.2 = Except.error "Connect timeout" ∧
    (connectOp st false tok).1.ws = some ReadyState.connecting ∧
    connectOp (connectOp st false tok).1 env' tok'
        = ((connectOp st false tok).1, [], Except.ok ()) := by
  simp [connectOp, hws]

/-- Witness for `connect_timeout_leaves_handle` on a fresh client. -/
theorem connect_timeout_leaves_handle_witness :
    (connectOp initState false none).2.2 = Except.error "Connect timeout" ∧
    (connectOp initState false none).1.ws = some ReadyState.connecting ∧
    connectOp (connectOp initState false none).1 true (some "tk")
        = ((connectOp initState false none).1, [], Except.ok ()) :=
  connect_timeout_leaves_handle initState none (some "tk") true rfl

/-- C9: tearing down via the last `unsubscribe` while the transport is
not open buffers the final `unsubscribe` frame, closes the transport
(code 1000) and clears the handle, but leaves the outbound buffer
intact: the first send attempted after a later connection is open
transmits every buffered frame, the final `unsubscribe` frame
included. -/
theorem teardown_keeps_buffer (st : ClientState) (p : String × Subscription)
    (f : Frame) (rs : ReadyState) (hsubs : st.subscriptions = [p])
    (hws : st.ws = some rs) (hrs : rs ≠ ReadyState.opened) :
    (unsubscribeOp st p.1).1.messageQueue
        = Frame.unsubscribe p.2.topic :: st.messageQueue ∧
    (unsubscribeOp st p.1).1.ws = none ∧
    (unsubscribeOp st p.1).2.2 = some WS_CLOSE_NORMAL ∧
    (send { (unsubscribeOp st p.1).1 with ws := some ReadyState.opened } f).2
        = (Frame.unsubscribe p.2.topic :: st.messageQueue) ++ [f] := by
  simp [unsubscribeOp, hsubs, mapDelete, hasTopicB, send, hws, hrs]

/-- Witness for `teardown_keeps_buffer`: one subscriber, a connecting
transport, one previously buffered frame. -/
theorem teardown_keeps_buffer_witness :
    (unsubscribeOp
        { ws := some ReadyState.connecting
          subscriptions := [("h1", ⟨"builds", 0⟩)]
          messageQueue := [Frame.subscribe "builds"]
          reconnectTimeout := none
          pendingTimers := []
          nextTimer := 0 } "h1").1.messageQueue
      = Frame.unsubscribe "builds" :: [Frame.subscribe "builds"] ∧
    (unsubscribeOp
        { ws := some ReadyState.connecting
          subscriptions := [("h1", ⟨"builds", 0⟩)]
          messageQueue := [Frame.subscribe "builds"]
          reconnectTimeout := none
          pendingTimers := []
          nextTimer := 0 } "h1").1.ws = none ∧
    (unsubscribeOp
        { ws := some ReadyState.connecting
          subscriptions := [("h1", ⟨"builds", 0⟩)]
          messageQueue := [Frame.subscribe "builds"]
          reconnectTimeout := none
          pendingTimers := []
          nextTimer := 0 } "h1").2.2 = some WS_CLOSE_NORMAL ∧
    (send { (unsubscribeOp
        { ws := some ReadyState.connecting
          subscriptions := [("h1", ⟨"builds", 0⟩)]
          messageQueue := [Frame.subscribe "builds"]
          reconnectTimeout := none
          pendingTimers := []
          nextTimer := 0 } "h1").1 with ws := some ReadyState.opened }
        (Frame.authenticate "tk")).2
      = (Frame.unsubscribe "builds" :: [Frame.subscribe "builds"])
          ++ [Frame.authenticate "tk"] :=
  teardown_keeps_buffer
    { ws := some ReadyState.connecting
      subscriptions := [("h1", ⟨"builds", 0⟩)]
      messageQueue := [Frame.subscribe "builds"]
      reconnectTimeout := none
      pendingTimers := []
      nextTimer := 0 } ("h1", ⟨"builds", 0⟩) (Frame.authenticate "tk")
    ReadyState.connecting rfl rfl (by decide)

/-- C5: behaviour of `unsubscribe(handle)` on an open transport with a
drained buffer.  An unknown handle is a complete no-op.  A known handle
has exactly its entry removed; an `unsubscribe` frame for its topic goes
out if and only if no remaining entry shares that topic; and when the
registry is left empty the transport is closed with code
`WS_CLOSE_NORMAL` and the handle cleared, otherwise the transport is
untouched and no close call is made. -/
theorem unsubscribe_spec (st : ClientState) (id : String)
    (hws : st.ws = some ReadyState.opened) (hq : st.messageQueue = []) :
    (st.subscriptions.find? (fun p => p.1 = id) = none →
        unsubscribeOp st id = (st, [], none)) ∧
    (∀ e, st.subscriptions.find? (fun p => p.1 = id) = some e →
      (unsubscribeOp st id).1.subscriptions = mapDelete st.subscriptions id ∧
      (unsubscribeOp st id).2.1
          = (if hasTopicB (mapDelete st.subscriptions id) e.2.topic
             then [] else [Frame.unsubscribe e.2.topic]) ∧
      (if (mapDelete st.subscriptions id).isEmpty
       then (unsubscribeOp st id).1.ws = none
          ∧ (unsubscribeOp st id).2.2 = some WS_CLOSE_NORMAL
       else (unsubscribeOp st id).1.ws = some ReadyState.opened
          ∧ (unsubscribeOp st id).2.2 = none)) := by
  constructor
  · intro hnone
    simp [unsubscribeOp, hnone]
  · intro e he
    by_cases hex : hasTopicB (mapDelete st.subscriptions id) e.2.topic
    · by_cases hemp : (mapDelete st.subscriptions id).isEmpty
      · exact absurd hex (by
          rw [List.isEmpty_iff] at hemp
          simp [hasTopicB, hemp])
      · simp only [unsubscribeOp, he, hex, if_pos, send, hws, hq]
        simp [hemp, hws]
    · by_cases hemp : (mapDelete st.subscriptions id).isEmpty
      · simp only [unsubscribeOp, he, hex, if_neg, send, hws, hq]
        simp [hemp, hws, send, hq]
      · simp only [unsubscribeOp, he, hex, if_neg, send, hws, hq]
        simp [hemp, hws, send, hq]

/-- Witness for `unsubscribe_spec`: two subscribers on distinct topics,
removing one known handle and probing an unknown one. -/
theorem unsubscribe_spec_witness :
    ((({ ws := some ReadyState.opened
         subscriptions := [("h1", ⟨"builds", 0⟩), ("h2", ⟨"deploys", 1⟩)]
         messageQueue := []
         reconnectTimeout := none
         pendingTimers := []
         nextTimer := 0 } : ClientState).subscriptions.find?
            (fun p => p.1 = "h1") = none →
        unsubscribeOp
          { ws := some ReadyState.opened
            subscriptions := [("h1", ⟨"builds", 0⟩), ("h2", ⟨"deploys", 1⟩)]
            messageQueue := []
            reconnectTimeout := none
            pendingTimers := []
            nextTimer := 0 } "h1"
          = ({ ws := some ReadyState.opened
               subscriptions := [("h1", ⟨"builds", 0⟩), ("h2", ⟨"deploys", 1⟩)]
               messageQueue := []
               reconnectTimeout := none
               pendingTimers := []
               nextTimer := 0 }, [], none)) ∧
    (∀ e, ({ ws := some ReadyState.opened
             subscriptions := [("h1", ⟨"builds", 0⟩), ("h2", ⟨"deploys", 1⟩)]
             messageQueue := []
             reconnectTimeout := none
             pendingTimers := []
             nextTimer := 0 } : ClientState).subscriptions.find?
            (fun p => p.1 = "h1") = some e →
      (unsubscribeOp
          { ws := some ReadyState.opened
            subscriptions := [("h1", ⟨"builds", 0⟩), ("h2", ⟨"deploys", 1⟩)]
            messageQueue := []
            reconnectTimeout := none
            pendingTimers := []
            nextTimer := 0 } "h1").1.subscriptions
          = mapDelete
              ({ ws := some ReadyState.opened
                 subscriptions := [("h1", ⟨"builds", 0⟩), ("h2", ⟨"deploys", 1⟩)]
                 messageQueue := []
                 reconnectTimeout := none
                 pendingTimers := []
                 nextTimer := 0 } : ClientState).subscriptions "h1" ∧
      (unsubscribeOp
          { ws := some ReadyState.opened
            subscriptions := [("h1", ⟨"builds", 0⟩), ("h2", ⟨"deploys", 1⟩)]
            messageQueue := []
            reconnectTimeout := none
            pendingTimers := []
            nextTimer := 0 } "h1").2.1
          = (if hasTopicB
                (mapDelete
                  ({ ws := some ReadyState.opened
                     subscriptions := [("h1", ⟨"builds", 0⟩), ("h2", ⟨"deploys", 1⟩)]
                     messageQueue := []
                     reconnectTimeout := none
                     pendingTimers := []
                     nextTimer := 0 } : ClientState).subscriptions "h1") e.2.topic
             then [] else [Frame.unsubscribe e.2.topic]) ∧
      (if (mapDelete
            ({ ws := some ReadyState.opened
               subscriptions := [("h1", ⟨"builds", 0⟩), ("h2", ⟨"deploys", 1⟩)]
               messageQueue := []
               reconnectTimeout := none
               pendingTimers := []
               nextTimer := 0 } : ClientState).subscriptions "h1").isEmpty
       then (unsubscribeOp
              { ws := some ReadyState.opened
                subscriptions := [("h1", ⟨"builds", 0⟩), ("h2", ⟨"deploys", 1⟩)]
                messageQueue := []
                reconnectTimeout := none
                pendingTimers := []
                nextTimer := 0 } "h1").1.ws = none
          ∧ (unsubscribeOp
              { ws := some ReadyState.opened
                subscriptions := [("h1", ⟨"builds", 0⟩), ("h2", ⟨"deploys", 1⟩)]
                messageQueue := []
                reconnectTimeout := none
                pendingTimers := []
                nextTimer := 0 } "h1").2.2 = some WS_CLOSE_NORMAL
       else (unsubscribeOp
              { ws := some ReadyState.opened
                subscriptions := [("h1", ⟨"builds", 0⟩), ("h2", ⟨"deploys", 1⟩)]
                messageQueue := []
                reconnectTimeout := none
                pendingTimers := []
                nextTimer := 0 } "h1").1.ws = some ReadyState.opened
          ∧ (unsubscribeOp
              { ws := some ReadyState.opened
                subscriptions := [("h1", ⟨"builds", 0⟩), ("h2", ⟨"deploys", 1⟩)]
                messageQueue := []
                reconnectTimeout := none
                pendingTimers := []
                nextTimer := 0 } "h1").2.2 = none))) :=
  unsubscribe_spec
    { ws := some ReadyState.opened
      subscriptions := [("h1", ⟨"builds", 0⟩), ("h2", ⟨"deploys", 1⟩)]
      messageQueue := []
      reconnectTimeout := none
      pendingTimers := []
      nextTimer := 0 } "h1" rfl rfl

/-- The scheduler-consistency invariant: the pending reconnect tasks are
exactly the one stored in `reconnectTimeout` (with the fixed delay), or
none. -/
def timerInv (st : ClientState) : Prop :=
  st.pendingTimers =
    (match st.reconnectTimeout with
     | none => []
     | some id => [(id, RECONNECT_TIMEOUT_MS)])

/-- Under the scheduler invariant, `reconnect` cancels any stored timer
and schedules exactly one replacement with the fixed delay. -/
theorem reconnectOp_pending (st : ClientState) (h : timerInv st) :
    (reconnectOp st).pendingTimers = [(st.nextTimer, RECONNECT_TIMEOUT_MS)] ∧
    (reconnectOp st).reconnectTimeout = some st.nextTimer ∧
    (reconnectOp st).nextTimer = st.nextTimer + 1 ∧
    timerInv (reconnectOp st) := by
  unfold timerInv at h
  cases hrt : st.reconnectTimeout with
  | none =>
      rw [hrt] at h
      simp [reconnectOp, hrt, h, timerInv]
  | some id =>
      rw [hrt] at h
      simp [reconnectOp, hrt, h, timerInv]

/-- C6: under the scheduler invariant, a transport close event with
code 1000 or 1001 leaves the client untouched (no reconnect scheduled),
while any other close code leaves exactly one reconnect task pending,
scheduled with the fixed `RECONNECT_TIMEOUT_MS` (5000ms) delay. -/
theorem close_code_reconnect (st : ClientState) (code : Nat) (hinv : timerInv st) :
    ((code = WS_CLOSE_NORMAL ∨ code = WS_CLOSE_GOING_AWAY) →
        oncloseHandler st code = st) ∧
    (code ≠ WS_CLOSE_NORMAL → code ≠ WS_CLOSE_GOING_AWAY →
        (oncloseHandler st code).pendingTimers
            = [(st.nextTimer, RECONNECT_TIMEOUT_MS)] ∧
        (oncloseHandler st code).reconnectTimeout = some st.nextTimer) := by
  constructor
  · intro h
    cases h with
    | inl h => simp [oncloseHandler, h]
    | inr h => simp [oncloseHandler, h]
  · intro h1 h2
    have hrw : oncloseHandler st code = reconnectOp st := by
      simp [oncloseHandler, h1, h2]
    rw [hrw]
    exact ⟨(reconnectOp_pending st hinv).1, (reconnectOp_pending st hinv).2.1⟩

/-- Witness for `close_code_reconnect`: a client with one pending timer,
probed with the normal close code and with an abnormal one (1006). -/
theorem close_code_reconnect_witness :
    (((1006 : Nat) = WS_CLOSE_NORMAL ∨ (1006 : Nat) = WS_CLOSE_GOING_AWAY) →
        oncloseHandler
          { ws := some ReadyState.opened
            subscriptions := []
            messageQueue := []
            reconnectTimeout := some 3
            pendingTimers := [(3, RECONNECT_TIMEOUT_MS)]
            nextTimer := 4 } 1006
          = { ws := some ReadyState.opened
              subscriptions := []
              messageQueue := []
              reconnectTimeout := some 3
              pendingTimers := [(3, RECONNECT_TIMEOUT_MS)]
              nextTimer := 4 }) ∧
    ((1006 : Nat) ≠ WS_CLOSE_NORMAL → (1006 : Nat) ≠ WS_CLOSE_GOING_AWAY →
        (oncloseHandler
          { ws := some ReadyState.opened
            subscriptions := []
            messageQueue := []
            reconnectTimeout := some 3
            pendingTimers := [(3, RECONNECT_TIMEOUT_MS)]
            nextTimer := 4 } 1006).pendingTimers
            = [(4, RECONNECT_TIMEOUT_MS)] ∧
        (oncloseHandler
          { ws := some ReadyState.opened
            subscriptions := []
            messageQueue := []
            reconnectTimeout := some 3
            pendingTimers := [(3, RECONNECT_TIMEOUT_MS)]
            nextTimer := 4 } 1006).reconnectTimeout = some 4) :=
  close_code_reconnect
    { ws := some ReadyState.opened
      subscriptions := []
      messageQueue := []
      reconnectTimeout := some 3
      pendingTimers := [(3, RECONNECT_TIMEOUT_MS)]
      nextTimer := 4 } 1006 rfl

/-- The events that drive a `SignalsClient` instance: the public API
calls (`subscribe`, `unsubscribe`), the transport handler firings
(`onerror`, `onclose`, `onmessage`) and the firing of a scheduled
reconnect task.  Environment choices (whether a connect attempt reaches
OPEN, the credential) ride on the events that involve `connect`. -/
inductive Event
  | sub (subId : String) (cb : Nat) (topic : String) (connectOk : Bool)
      (token : Option String)
  | unsub (subId : String)
  | transportError
  | transportClose (code : Nat)
  | fire (connectOk : Bool) (token : Option String)
  | inbound (p : Payload)

/-- One event applied to a client state (outputs discarded;
`handleMessage` never mutates the state). -/
def step (st : ClientState) : Event → ClientState
  | Event.sub id cb topic ok tok => (subscribeOp st id cb topic ok tok).1
  | Event.unsub id => (unsubscribeOp st id).1
  | Event.transportError => reconnectOp st
  | Event.transportClose code => oncloseHandler st code
  | Event.fire ok tok => (timerFire st ok tok).1
  | Event.inbound _ => st

/-- A client driven from construction through a list of events. -/
def run (evs : List Event) : ClientState :=
  evs.foldl step initState

/-- Function `send` never touches the scheduler fields. -/
theorem send_timers (st : ClientState) (f : Frame) :
    (send st f).1.reconnectTimeout = st.reconnectTimeout ∧
    (send st f).1.pendingTimers = st.pendingTimers ∧
    (send st f).1.nextTimer = st.nextTimer := by
  unfold send
  cases st.ws with
  | none => exact ⟨rfl, rfl, rfl⟩
  | some rs =>
      by_cases h : rs = ReadyState.opened <;> simp [h]

/-- Function `sendAll` never touches the scheduler fields. -/
theorem sendAll_timers (fs : List Frame) (st : ClientState) :
    (sendAll st fs).1.reconnectTimeout = st.reconnectTimeout ∧
    (sendAll st fs).1.pendingTimers = st.pendingTimers ∧
    (sendAll st fs).1.nextTimer = st.nextTimer := by
  induction fs generalizing st with
  | nil => exact ⟨rfl, rfl, rfl⟩
  | cons f fs ih =>
      have h1 := send_timers st f
      have h2 := ih (send st f).1
      simp only [sendAll]
      exact ⟨h2.1.trans h1.1, h2.2.1.trans h1.2.1, h2.2.2.trans h1.2.2⟩

/-- Function `connect` as embedded never touches the scheduler fields. -/
theorem connectOp_timers (st : ClientState) (env : Bool) (tok : Option String) :
    (connectOp st env tok).1.reconnectTimeout = st.reconnectTimeout ∧
    (connectOp st env tok).1.pendingTimers = st.pendingTimers ∧
    (connectOp st env tok).1.nextTimer = st.nextTimer := by
  unfold connectOp
  cases st.ws with
  | some rs => exact ⟨rfl, rfl, rfl⟩
  | none =>
      cases env with
      | false => simp
      | true =>
          cases tok with
          | none => simp
          | some tk =>
              simp only [Bool.true_eq_false]
              have := send_timers { st with ws := some ReadyState.opened }
                (Frame.authenticate tk)
              simp only [if_true]
              exact this

/-- The scheduler invariant only depends on the scheduler fields. -/
theorem timerInv_of_eq (a b : ClientState)
    (h1 : a.reconnectTimeout = b.reconnectTimeout)
    (h2 : a.pendingTimers = b.pendingTimers) (h : timerInv b) : timerInv a := by
  unfold timerInv at *
  rw [h1, h2]
  exact h

/-- Step `subscribe` preserves the scheduler invariant: its only interaction
with timers is via `reconnect` on a failed connect. -/
theorem subscribeOp_timerInv (st : ClientState) (id : String) (cb : Nat)
    (topic : String) (env : Bool) (tok : Option String) (h : timerInv st) :
    timerInv (subscribeOp st id cb topic env tok).1 := by
  unfold subscribeOp
  simp only []
  have hc := connectOp_timers
    { st with subscriptions := mapSet st.subscriptions id ⟨topic, cb⟩ } env tok
  have hinvc : timerInv
      (connectOp { st with subscriptions := mapSet st.subscriptions id ⟨topic, cb⟩ }
        env tok).1 :=
    timerInv_of_eq _ _ hc.1 hc.2.1 (timerInv_of_eq _ st rfl rfl h)
  split
  · split
    · exact hinvc
    · have hs := send_timers
        (connectOp { st with subscriptions := mapSet st.subscriptions id ⟨topic, cb⟩ }
          env tok).1 (Frame.subscribe topic)
      exact timerInv_of_eq _ _ hs.1 hs.2.1 hinvc
  · exact (reconnectOp_pending _ hinvc).2.2.2

/-- Step `unsubscribe` never touches the scheduler fields. -/
theorem unsubscribeOp_timers (st : ClientState) (id : String) :
    (unsubscribeOp st id).1.reconnectTimeout = st.reconnectTimeout ∧
    (unsubscribeOp st id).1.pendingTimers = st.pendingTimers ∧
    (unsubscribeOp st id).1.nextTimer = st.nextTimer := by
  unfold unsubscribeOp
  split
  · exact ⟨rfl, rfl, rfl⟩
  · rename_i e heq
    dsimp only
    by_cases hex : hasTopicB (mapDelete st.subscriptions id) e.2.topic = true
    · rw [if_pos hex]
      split
      · split <;> exact ⟨rfl, rfl, rfl⟩
      · exact ⟨rfl, rfl, rfl⟩
    · rw [if_neg hex]
      have hs := send_timers
        { st with subscriptions := mapDelete st.subscriptions id }
        (Frame.unsubscribe e.2.topic)
      split
      · split <;> exact ⟨hs.1, hs.2.1, hs.2.2⟩
      · exact ⟨hs.1, hs.2.1, hs.2.2⟩

/-- After the scheduled reconnect task pops itself off the scheduler,
running its body re-establishes the scheduler invariant. -/
theorem timerCallback_timerInv (st : ClientState) (env : Bool) (tok : Option String)
    (h : st.pendingTimers = []) : timerInv (timerCallback st env tok).1 := by
  unfold timerCallback
  simp only []
  have hinv1 : timerInv { st with reconnectTimeout := none, ws := none } := by
    unfold timerInv
    exact h
  have hc := connectOp_timers { st with reconnectTimeout := none, ws := none } env tok
  have hinvc := timerInv_of_eq _ _ hc.1 hc.2.1 hinv1
  split
  · have hs := sendAll_timers
      ((connectOp { st with reconnectTimeout := none, ws := none } env
          tok).1.subscriptions.map (fun p => Frame.subscribe p.1))
      (connectOp { st with reconnectTimeout := none, ws := none } env tok).1
    exact timerInv_of_eq _ _ hs.1 hs.2.1 hinvc
  · exact (reconnectOp_pending _ hinvc).2.2.2

/-- Firing a pending reconnect timer preserves the scheduler
invariant. -/
theorem timerFire_timerInv (st : ClientState) (env : Bool) (tok : Option String)
    (h : timerInv st) : timerInv (timerFire st env tok).1 := by
  unfold timerFire
  cases hpt : st.pendingTimers with
  | nil => exact h
  | cons t rest =>
      have hrest : rest = [] := by
        unfold timerInv at h
        cases hrt : st.reconnectTimeout with
        | none =>
            rw [hrt] at h
            rw [hpt] at h
            simp at h
        | some i =>
            rw [hrt] at h
            rw [hpt] at h
            simp at h
            exact h.2
      exact timerCallback_timerInv { st with pendingTimers := rest } env tok
        (by simp [hrest])

/-- Every event preserves the scheduler invariant. -/
theorem step_timerInv (st : ClientState) (e : Event) (h : timerInv st) :
    timerInv (step st e) := by
  cases e with
  | sub id cb topic ok tok => exact subscribeOp_timerInv st id cb topic ok tok h
  | unsub id =>
      have hu := unsubscribeOp_timers st id
      exact timerInv_of_eq _ st hu.1 hu.2.1 h
  | transportError => exact (reconnectOp_pending st h).2.2.2
  | transportClose code =>
      show timerInv (oncloseHandler st code)
      unfold oncloseHandler
      split
      · exact (reconnectOp_pending st h).2.2.2
      · exact h
  | fire ok tok => exact timerFire_timerInv st ok tok h
  | inbound p => exact h

/-- The scheduler invariant holds along any run. -/
theorem foldl_timerInv (evs : List Event) (st : ClientState) (h : timerInv st) :
    timerInv (evs.foldl step st) := by
  induction evs generalizing st with
  | nil => exact h
  | cons e evs ih => exact ih (step st e) (step_timerInv st e h)

/-- The scheduler invariant holds in every reachable state. -/
theorem run_timerInv (evs : List Event) : timerInv (run evs) :=
  foldl_timerInv evs initState rfl

/-- C7: in every state reachable from construction by any event
sequence, at most one reconnect task is pending; and triggering
`reconnect` while one is stored cancels it and schedules exactly one
replacement (with the fixed delay) instead of stacking a second one. -/
theorem reconnect_timer_single_slot (evs : List Event) :
    (run evs).pendingTimers.length ≤ 1 ∧
    (∀ id, (run evs).reconnectTimeout = some id →
      (reconnectOp (run evs)).pendingTimers
          = [((run evs).nextTimer, RECONNECT_TIMEOUT_MS)]) := by
  have h := run_timerInv evs
  constructor
  · unfold timerInv at h
    rw [h]
    cases (run evs).reconnectTimeout <;> simp
  · intro id hid
    exact (reconnectOp_pending (run evs) h).1

/-- Witness for `reconnect_timer_single_slot`: a transport error event
stores timer 0, whose replacement on a second trigger is the single
task 1. -/
theorem reconnect_timer_single_slot_witness :
    (run [Event.transportError]).pendingTimers.length ≤ 1 ∧
    (reconnectOp (run [Event.transportError])).pendingTimers
        = [((run [Event.transportError]).nextTimer, RECONNECT_TIMEOUT_MS)] :=
  ⟨(reconnect_timer_single_slot [Event.transportError]).1,
   (reconnect_timer_single_slot [Event.transportError]).2 0 rfl⟩

/-- The registry-facing call sequence of C1: `subscribe` and
`unsubscribe` calls, every connect attempt succeeding (connection
establishment is orthogonal to the dedup property; a failed connect
produces no subscribe frame at all). -/
inductive SEvent
  | subE (subId : String) (cb : Nat) (topic : String) (token : Option String)
  | unsubE (subId : String)

/-- One registry call applied to a client state, with the frames it
puts on the wire. -/
def stepS (st : ClientState) : SEvent → ClientState × List Frame
  | SEvent.subE id cb t tok => subscribeOp st id cb t true tok
  | SEvent.unsubE id =>
      let r := unsubscribeOp st id
      (r.1, r.2.1)

/-- A call sequence applied in order, concatenating the wire frames. -/
def runS (st : ClientState) : List SEvent → ClientState × List Frame
  | [] => (st, [])
  | e :: rest =>
      let r := stepS st e
      let r2 := runS r.1 rest
      (r2.1, r.2 ++ r2.2)

/-- Is this event a `subscribe` call with the given topic? -/
def isSubTo (T : String) : SEvent → Bool
  | SEvent.subE _ _ t _ => t = T
  | SEvent.unsubE _ => false

/-- No call of the sequence empties topic `T` once it is inhabited:
whenever `T` has a live subscription before a call, it still has one
after it (the side condition of C1). -/
def noEmptyingB (T : String) (st : ClientState) : List SEvent → Bool
  | [] => true
  | e :: rest =>
      (!(hasTopicB st.subscriptions T) || hasTopicB (stepS st e).1.subscriptions T)
        && noEmptyingB T (stepS st e).1 rest

/-- A quiescent client: drained outbound buffer, and either an OPEN
transport or no transport with an empty registry (the states between
registry calls when every connect succeeds). -/
def ready (st : ClientState) : Prop :=
  st.messageQueue = [] ∧
    (st.ws = some ReadyState.opened ∨ (st.ws = none ∧ st.subscriptions = []))

/-- Frame counts add over concatenated logs. -/
theorem countFrame_append (a b : List Frame) (f : Frame) :
    countFrame (a ++ b) f = countFrame a f + countFrame b f := by
  unfold countFrame
  rw [List.filter_append, List.length_append]

/-- After `Map.set` with a `T`-subscription, topic `T` is inhabited. -/
theorem hasTopicB_mapSet_self (m : List (String × Subscription)) (k : String)
    (cb : Nat) (T : String) :
    hasTopicB (mapSet m k ⟨T, cb⟩) T = true := by
  unfold hasTopicB mapSet
  by_cases h : m.any (fun p => p.1 = k) = true
  · rw [if_pos h]
    rw [List.any_eq_true] at h
    obtain ⟨p, hp, hpk⟩ := h
    rw [List.find?_isSome]
    refine ⟨(k, ⟨T, cb⟩), ?_, by simp⟩
    rw [List.mem_map]
    exact ⟨p, hp, by simp at hpk; simp [hpk]⟩
  · rw [if_neg h]
    rw [List.find?_isSome]
    exact ⟨(k, ⟨T, cb⟩), by simp, by simp⟩

/-- Topic `T` is uninhabited exactly when no registry entry carries
it. -/
theorem hasTopicB_false_iff (m : List (String × Subscription)) (T : String) :
    hasTopicB m T = false ↔ ∀ x ∈ m, ¬(x.2.topic = T) := by
  unfold hasTopicB
  constructor
  · intro h x hx hxT
    have hs : (m.find? (fun p => p.2.topic = T)).isSome = true := by
      rw [List.find?_isSome]
      exact ⟨x, hx, by simp [hxT]⟩
    rw [h] at hs
    cases hs
  · intro h
    cases hf : m.find? (fun p => p.2.topic = T) with
    | none => rfl
    | some x =>
        have hmem := List.mem_of_find?_eq_some hf
        have hpx := List.find?_some hf
        simp at hpx
        exact absurd hpx (h x hmem)

/-- JS `Map.set` with a subscription on a different topic cannot inhabit
topic `T`. -/
theorem hasTopicB_mapSet_ne (m : List (String × Subscription)) (k : String)
    (cb : Nat) (t T : String) (hm : hasTopicB m T = false) (ht : t ≠ T) :
    hasTopicB (mapSet m k ⟨t, cb⟩) T = false := by
  rw [hasTopicB_false_iff] at hm ⊢
  intro x hx
  unfold mapSet at hx
  by_cases h : m.any (fun p => p.1 = k) = true
  · rw [if_pos h, List.mem_map] at hx
    obtain ⟨p, hp, hpx⟩ := hx
    by_cases hpk : p.1 = k
    · rw [if_pos hpk] at hpx
      rw [← hpx]
      simpa using ht
    · rw [if_neg hpk] at hpx
      rw [← hpx]
      exact hm p hp
  · rw [if_neg h, List.mem_append] at hx
    cases hx with
    | inl hx => exact hm x hx
    | inr hx =>
        simp at hx
        rw [hx]
        simpa using ht

/-- JS `Map.delete` cannot inhabit topic `T`. -/
theorem hasTopicB_mapDelete (m : List (String × Subscription)) (k T : String)
    (hm : hasTopicB m T = false) : hasTopicB (mapDelete m k) T = false := by
  rw [hasTopicB_false_iff] at hm ⊢
  intro x hx
  unfold mapDelete at hx
  exact hm x (List.mem_of_mem_filter hx)

/-- Calling `subscribe` on an OPEN transport with a drained buffer: the entry
is inserted and exactly one `subscribe` frame goes out when the topic
was uninhabited, none otherwise. -/
theorem subscribeOp_opened (st : ClientState) (id : String) (cb : Nat) (t : String)
    (tok : Option String) (hws : st.ws = some ReadyState.opened)
    (hq : st.messageQueue = []) :
    subscribeOp st id cb t true tok
      = ({ st with subscriptions := mapSet st.subscriptions id ⟨t, cb⟩ },
         if hasTopicB st.subscriptions t then [] else [Frame.subscribe t]) := by
  obtain ⟨ws, subs, q, rt, pt, nt⟩ := st
  simp only at hws hq
  subst hws hq
  by_cases hex : hasTopicB subs t = true <;>
    simp [subscribeOp, connectOp, send, hex]

/-- Calling `subscribe` on a fresh client (no transport, empty registry) with
every connect succeeding: the transport opens, an `authenticate` frame
goes out when a credential is present, then the `subscribe` frame. -/
theorem subscribeOp_fresh (st : ClientState) (id : String) (cb : Nat) (t : String)
    (tok : Option String) (hws : st.ws = none) (hsubs : st.subscriptions = [])
    (hq : st.messageQueue = []) :
    subscribeOp st id cb t true tok
      = ({ st with ws := some ReadyState.opened, subscriptions := [(id, ⟨t, cb⟩)] },
         (match tok with
          | some tk => [Frame.authenticate tk]
          | none => []) ++ [Frame.subscribe t]) := by
  obtain ⟨ws, subs, q, rt, pt, nt⟩ := st
  simp only at hws hsubs hq
  subst hws hsubs hq
  cases tok <;> simp [subscribeOp, connectOp, send, hasTopicB, mapSet]

/-- Calling `unsubscribe` on an empty registry is a no-op. -/
theorem unsubscribeOp_empty (st : ClientState) (id : String)
    (hsubs : st.subscriptions = []) : unsubscribeOp st id = (st, [], none) := by
  simp [unsubscribeOp, hsubs]

/-- Calling `unsubscribe` on an OPEN transport with a drained buffer keeps the
client quiescent, never emits a `subscribe` frame, and leaves the
registry equal to itself or to the deletion. -/
theorem unsubscribeOp_opened_frames (st : ClientState) (id : String) (T : String)
    (hws : st.ws = some ReadyState.opened) (hq : st.messageQueue = []) :
    ((unsubscribeOp st id).1.subscriptions = st.subscriptions ∨
      (unsubscribeOp st id).1.subscriptions = mapDelete st.subscriptions id) ∧
    (unsubscribeOp st id).1.messageQueue = [] ∧
    ((unsubscribeOp st id).1.ws = some ReadyState.opened ∨
      ((unsubscribeOp st id).1.ws = none ∧
        (unsubscribeOp st id).1.subscriptions = [])) ∧
    countFrame (unsubscribeOp st id).2.1 (Frame.subscribe T) = 0 := by
  cases hfind : st.subscriptions.find? (fun p => p.1 = id) with
  | none =>
      refine ⟨Or.inl ?_, ?_, Or.inl ?_, ?_⟩ <;>
        simp [unsubscribeOp, hfind, hq, hws, countFrame]
  | some e =>
      by_cases hex : hasTopicB (mapDelete st.subscriptions id) e.2.topic = true
      · by_cases hemp : (mapDelete st.subscriptions id).isEmpty = true
        · rw [List.isEmpty_iff] at hemp
          rw [hemp] at hex
          simp [hasTopicB] at hex
        · refine ⟨Or.inr ?_, ?_, Or.inl ?_, ?_⟩ <;>
            simp [unsubscribeOp, hfind, hex, hemp, hq, hws, countFrame]
      · by_cases hemp : (mapDelete st.subscriptions id).isEmpty = true
        · rw [List.isEmpty_iff] at hemp
          refine ⟨Or.inr ?_, ?_, Or.inr ⟨?_, ?_⟩, ?_⟩ <;>
            simp [unsubscribeOp, hfind, hemp, hq, hws, countFrame, send, hasTopicB]
        · refine ⟨Or.inr ?_, ?_, Or.inl ?_, ?_⟩ <;>
            simp [unsubscribeOp, hfind, hex, hemp, hq, hws, countFrame, send]

/-- Once topic `T` is inhabited, a non-emptying call sequence (all
connects succeeding) emits no further `subscribe` frame for `T`, and
keeps `T` inhabited and the client quiescent. -/
theorem countT_inhabited (T : String) (evs : List SEvent) (st : ClientState)
    (hr : ready st) (hT : hasTopicB st.subscriptions T = true)
    (hne : noEmptyingB T st evs = true) :
    countFrame (runS st evs).2 (Frame.subscribe T) = 0 ∧
    hasTopicB (runS st evs).1.subscriptions T = true ∧
    ready (runS st evs).1 := by
  induction evs generalizing st with
  | nil => exact ⟨rfl, hT, hr⟩
  | cons e rest ih =>
      simp only [noEmptyingB, Bool.and_eq_true, Bool.or_eq_true,
        Bool.not_eq_true'] at hne
      obtain ⟨h1, h2⟩ := hne
      have hTnext : hasTopicB (stepS st e).1.subscriptions T = true := by
        cases h1 with
        | inl h => rw [hT] at h; cases h
        | inr h => exact h
      have hws : st.ws = some ReadyState.opened := by
        cases hr.2 with
        | inl h => exact h
        | inr h =>
            rw [h.2] at hT
            simp [hasTopicB] at hT
      cases e with
      | subE id cb t tok =>
          have hstep := subscribeOp_opened st id cb t tok hws hr.1
          dsimp only [stepS] at hTnext h2
          rw [hstep] at hTnext h2
          have hr' : ready
              { st with subscriptions := mapSet st.subscriptions id ⟨t, cb⟩ } :=
            ⟨hr.1, Or.inl hws⟩
          have ihr := ih { st with subscriptions := mapSet st.subscriptions id ⟨t, cb⟩ }
            hr' hTnext h2
          have hcount : countFrame
              (if hasTopicB st.subscriptions t then [] else [Frame.subscribe t])
              (Frame.subscribe T) = 0 := by
            by_cases hex : hasTopicB st.subscriptions t = true
            · simp [hex, countFrame]
            · have ht : ¬(t = T) := by
                intro hEq
                rw [hEq] at hex
                exact hex hT
              simp [hex, countFrame, ht]
          dsimp only [runS, stepS]
          rw [hstep]
          refine ⟨?_, ihr.2.1, ihr.2.2⟩
          rw [countFrame_append, hcount, ihr.1]
      | unsubE id =>
          have hu := unsubscribeOp_opened_frames st id T hws hr.1
          dsimp only [stepS] at hTnext h2
          have hr' : ready (unsubscribeOp st id).1 := ⟨hu.2.1, hu.2.2.1⟩
          have ihr := ih (unsubscribeOp st id).1 hr' hTnext h2
          dsimp only [runS, stepS]
          refine ⟨?_, ihr.2.1, ihr.2.2⟩
          rw [countFrame_append, hu.2.2.2, ihr.1]

/-- Starting with topic `T` uninhabited, a non-emptying call sequence
(all connects succeeding) emits exactly one `subscribe` frame for `T`
when it contains at least one `subscribe(T)` call, and none
otherwise. -/
theorem countT_fresh (T : String) (evs : List SEvent) (st : ClientState)
    (hr : ready st) (hT : hasTopicB st.subscriptions T = false)
    (hne : noEmptyingB T st evs = true) :
    countFrame (runS st evs).2 (Frame.subscribe T)
      = (if evs.any (isSubTo T) then 1 else 0) := by
  induction evs generalizing st with
  | nil => rfl
  | cons e rest ih =>
      simp only [noEmptyingB, Bool.and_eq_true, Bool.or_eq_true,
        Bool.not_eq_true'] at hne
      obtain ⟨h1, h2⟩ := hne
      cases e with
      | subE id cb t tok =>
          by_cases htT : t = T
          · subst htT
            cases hr.2 with
            | inl hws =>
                have hstep := subscribeOp_opened st id cb t tok hws hr.1
                dsimp only [stepS] at h2
                rw [hstep] at h2
                have hTnext : hasTopicB
                    (mapSet st.subscriptions id ⟨t, cb⟩) t = true :=
                  hasTopicB_mapSet_self st.subscriptions id cb t
                have hrest := countT_inhabited t rest
                  { st with subscriptions := mapSet st.subscriptions id ⟨t, cb⟩ }
                  ⟨hr.1, Or.inl hws⟩ hTnext h2
                dsimp only [runS, stepS]
                rw [hstep]
                rw [countFrame_append, hrest.1]
                simp [hT, countFrame, List.any_cons, isSubTo]
            | inr hfresh =>
                have hstep := subscribeOp_fresh st id cb t tok hfresh.1
                  hfresh.2 hr.1
                dsimp only [stepS] at h2
                rw [hstep] at h2
                have hTnext : hasTopicB
                    ([(id, (⟨t, cb⟩ : Subscription))]) t = true := by
                  simp [hasTopicB]
                have hrest := countT_inhabited t rest
                  { st with ws := some ReadyState.opened,
                            subscriptions := [(id, ⟨t, cb⟩)] }
                  ⟨hr.1, Or.inl rfl⟩ hTnext h2
                dsimp only [runS, stepS]
                rw [hstep]
                rw [countFrame_append, hrest.1]
                cases tok <;> simp [countFrame, List.any_cons, isSubTo]
          · cases hr.2 with
            | inl hws =>
                have hstep := subscribeOp_opened st id cb t tok hws hr.1
                dsimp only [stepS] at h2
                rw [hstep] at h2
                have hTnext : hasTopicB
                    (mapSet st.subscriptions id ⟨t, cb⟩) T = false :=
                  hasTopicB_mapSet_ne st.subscriptions id cb t T hT htT
                have ihr := ih
                  { st with subscriptions := mapSet st.subscriptions id ⟨t, cb⟩ }
                  ⟨hr.1, Or.inl hws⟩ hTnext h2
                dsimp only [runS, stepS]
                rw [hstep]
                rw [countFrame_append, ihr]
                by_cases hex : hasTopicB st.subscriptions t = true <;>
                  simp [hex, countFrame, List.any_cons, isSubTo, htT]
            | inr hfresh =>
                have hstep := subscribeOp_fresh st id cb t tok hfresh.1
                  hfresh.2 hr.1
                dsimp only [stepS] at h2
                rw [hstep] at h2
                have hTnext : hasTopicB
                    ([(id, (⟨t, cb⟩ : Subscription))]) T = false := by
                  simp [hasTopicB, htT]
                have ihr := ih
                  { st with ws := some ReadyState.opened,
                            subscriptions := [(id, ⟨t, cb⟩)] }
                  ⟨hr.1, Or.inl rfl⟩ hTnext h2
                dsimp only [runS, stepS]
                rw [hstep]
                rw [countFrame_append, ihr]
                cases tok <;>
                  simp [countFrame, List.any_cons, isSubTo, htT]
      | unsubE id =>
          cases hr.2 with
          | inl hws =>
              have hu := unsubscribeOp_opened_frames st id T hws hr.1
              dsimp only [stepS] at h2
              have hTnext : hasTopicB (unsubscribeOp st id).1.subscriptions T
                  = false := by
                cases hu.1 with
                | inl h => rw [h]; exact hT
                | inr h => rw [h]; exact hasTopicB_mapDelete st.subscriptions id T hT
              have ihr := ih (unsubscribeOp st id).1 ⟨hu.2.1, hu.2.2.1⟩ hTnext h2
              dsimp only [runS, stepS]
              rw [countFrame_append, ihr, hu.2.2.2]
              simp [List.any_cons, isSubTo]
          | inr hfresh =>
              have hstep := unsubscribeOp_empty st id hfresh.2
              dsimp only [stepS] at h2
              rw [hstep] at h2
              have ihr := ih st hr hT h2
              dsimp only [runS, stepS]
              rw [hstep]
              rw [countFrame_append, ihr]
              simp [List.any_cons, isSubTo, countFrame]

/-- C1: from a quiescent state in which topic `T` has no live
subscription, any sequence of registry calls (all connects succeeding)
that contains at least one `subscribe` to `T` and never empties `T`
once inhabited puts exactly one `\x7baction: "subscribe", topic: T\x7d`
frame on the wire — produced when `T` goes from zero subscriptions to
one; every later `subscribe(T)` call produces none. -/
theorem subscribe_frame_once (st : ClientState) (T : String) (evs : List SEvent)
    (hr : ready st) (hT : hasTopicB st.subscriptions T = false)
    (hne : noEmptyingB T st evs = true) (hN : evs.any (isSubTo T) = true) :
    countFrame (runS st evs).2 (Frame.subscribe T) = 1 := by
  rw [countT_fresh T evs st hr hT hne, if_pos hN]

/-- Witness for `subscribe_frame_once`: two subscribes to `builds` and
an unsubscribe of the first, from a fresh client — one `subscribe`
frame for `builds` in total. -/
theorem subscribe_frame_once_witness :
    countFrame
      (runS initState
        [SEvent.subE "h1" 0 "builds" none, SEvent.subE "h2" 1 "builds" none,
         SEvent.unsubE "h1"]).2
      (Frame.subscribe "builds") = 1 :=
  subscribe_frame_once initState "builds"
    [SEvent.subE "h1" 0 "builds" none, SEvent.subE "h2" 1 "builds" none,
     SEvent.unsubE "h1"]
    ⟨rfl, Or.inr ⟨rfl, rfl⟩⟩ rfl (by decide) rfl

end Signals
